import Mathlib

/-!
Verification of the imxrt-dcp driver (i.MX RT Data Co-Processor).

The development shallowly embeds the packet encoding (src/packet/raw.rs,
src/packet/builder.rs), the channel/executor register protocol
(src/channels/mod.rs, src/ex.rs, src/ex/mod.rs), the operation
configuration (src/ops/mod.rs) and the task state machine (src/task.rs).
Machine integers are modelled as `Nat`; register writes are modelled as an
explicit write log applied to an explicit register state; fallible
construction is modelled with `Option`/sum types (a Rust `assert!` failure
is `none`).

The repository snapshot contains two revisions of several modules
side by side (e.g. `src/ex.rs` and `src/ex/mod.rs`); where the two differ,
both are embedded, with `Old` marking the `*/mod.rs` revision.
-/

namespace Dcp

/-- Store `x` (truncated to `len` bits) into the bit range
`[lo, lo+len)` of `f`, leaving all other bits unchanged.  This is the
semantics of `BitArray::store` on a subrange used by the `ctl0_flags!` /
`ctl1_flags!` macros in src/packet/raw.rs. -/
def storeField (f lo len x : Nat) : Nat :=
  f - (((f >>> lo) % 2 ^ len) <<< lo) + ((x % 2 ^ len) <<< lo)

/-- The `Control0` field of a control packet: 24 flag bits (Lsb0 order,
modelled as a `Nat` bitmask) plus an 8-bit tag.  From src/packet/raw.rs. -/
structure Control0 where
  flags : Nat
  tag : Nat
deriving DecidableEq, Repr

/-- `Control0::default()`: all bits clear. -/
def Control0.default : Control0 := ⟨0, 0⟩

/-- Constructor bodies generated by `ctl0_flags!(new: 4..8; ...)` in
src/packet/raw.rs: store a 4-bit pattern into flag bits 4..8 of a
defaulted value. -/
def Control0.ctor (x : Nat) : Control0 :=
  ⟨storeField 0 4 4 x, 0⟩

/-- `Control0::memcopy()` (pattern 0b0001 in bits 4..8). -/
def Control0.memcopy : Control0 := Control0.ctor 1

/-- `Control0::blit()` (pattern 0b1000 in bits 4..8). -/
def Control0.blit : Control0 := Control0.ctor 8

/-- `Control0::cipher()` (pattern 0b0010 in bits 4..8). -/
def Control0.cipher : Control0 := Control0.ctor 2

/-- `Control0::hash()` (pattern 0b0100 in bits 4..8). -/
def Control0.hash : Control0 := Control0.ctor 4

/-- `Control0::memcopy_hash()` (pattern 0b101 in bits 4..8). -/
def Control0.memcopy_hash : Control0 := Control0.ctor 5

/-- `Control0::cipher_hash()` (pattern 0b110 in bits 4..8). -/
def Control0.cipher_hash : Control0 := Control0.ctor 6

/-- Single-bit setter bodies generated by the second arm of `ctl0_flags!`
in src/packet/raw.rs: store 1 into bit range `[p, p+1)`. -/
def Control0.setBit (c : Control0) (p : Nat) : Control0 :=
  ⟨storeField c.flags p 1 1, c.tag⟩

/-- `Control0::decr_semaphore()` (bit 1), src/packet/raw.rs. -/
def Control0.decr_semaphore (c : Control0) : Control0 := c.setBit 1

/-- `Control0::chain_continuous()` (bit 3), src/packet/raw.rs. -/
def Control0.chain_continuous (c : Control0) : Control0 := c.setBit 3

/-- `Control0::constant_fill()` (bit 16), src/packet/raw.rs. -/
def Control0.constant_fill (c : Control0) : Control0 := c.setBit 16

/-- `Control0::key_byteswap()` (bit 18), src/packet/raw.rs. -/
def Control0.key_byteswap (c : Control0) : Control0 := c.setBit 18

/-- `Control0::key_wordswap()` (bit 19), src/packet/raw.rs. -/
def Control0.key_wordswap (c : Control0) : Control0 := c.setBit 19

/-- Modelled from the spec: the flag-name enumeration of the newer
revision's packet module, whose defining file (the newer
`src/packet/mod.rs`) is not present under src/; only its users
(src/packet/builder.rs, src/ex.rs) are.  The constructor names are the
ones those users mention, and each flag's bit position follows the flag
list of the `ctl0_flags!` invocation in src/packet/raw.rs, which encodes
the same hardware register. -/
inductive Control0Flag
  | InterruptEnable
  | DecrSemaphore
  | Chain
  | ChainContinuous
  | EnableMemcopy
  | EnableCipher
  | EnableHash
  | EnableBlit
  | CipherEncrypt
  | CipherInit
  | OtpKey
  | PayloadKey
  | HashInit
  | HashTerm
  | HashCheck
  | HashOutput
  | ConstantFill
  | KeyByteSwap
  | KeyWordSwap
  | InputByteSwap
  | InputWordSwap
  | OutputByteSwap
  | OutputWordSwap
deriving DecidableEq, Repr

/-- Bit position of each `Control0Flag`, per the flag list in
src/packet/raw.rs. -/
def Control0Flag.bit : Control0Flag → Nat
  | .InterruptEnable => 0
  | .DecrSemaphore => 1
  | .Chain => 2
  | .ChainContinuous => 3
  | .EnableMemcopy => 4
  | .EnableCipher => 5
  | .EnableHash => 6
  | .EnableBlit => 7
  | .CipherEncrypt => 8
  | .CipherInit => 9
  | .OtpKey => 10
  | .PayloadKey => 11
  | .HashInit => 12
  | .HashTerm => 13
  | .HashCheck => 14
  | .HashOutput => 15
  | .ConstantFill => 16
  | .KeyByteSwap => 18
  | .KeyWordSwap => 19
  | .InputByteSwap => 20
  | .InputWordSwap => 21
  | .OutputByteSwap => 22
  | .OutputWordSwap => 23

/-- Modelled from the spec: `Control0::flag` of the newer revision's
packet module (file absent from src/).  It is a pure by-value bit-set:
src/packet/builder.rs invokes it on the immutable binding `ctl0`
(`let ctl0 = self.raw.control0; ... ctl0.flag(...)`), which in Rust rules
out a `&mut self` receiver, and assigns the returned value back
(`self.raw.control0 = self.raw.control0.flag(...)`). -/
def Control0.flag (c : Control0) (f : Control0Flag) : Control0 :=
  ⟨c.flags ||| 2 ^ f.bit, c.tag⟩

/-- Errors decoded from the DCP status field (src/lib.rs), plus the
`Executor` wrapper variant referenced by the newer revision's
src/task.rs (`crate::Error::Executor(e)`). -/
inductive ExError
  | SlotsFull
deriving DecidableEq, Repr

/-- The driver's error enumeration: the six status-derived classes from
src/lib.rs, each carrying the opaque 8-bit hardware code, and the
executor-error wrapper used by src/task.rs. -/
inductive Error
  | HashMismatch (code : Nat)
  | SetupError (code : Nat)
  | PacketError (code : Nat)
  | SourceError (code : Nat)
  | DestError (code : Nat)
  | Other (code : Nat)
  | Executor (e : ExError)
deriving DecidableEq, Repr

/-- `nb::Result<u8, Error>`: success with the echoed tag, `WouldBlock`,
or a decoded error. -/
inductive PollResult
  | ok (tag : Nat)
  | wouldBlock
  | err (e : Error)
deriving DecidableEq, Repr

/-- The `Status` field of a control packet (src/packet/raw.rs): the 8-bit
completion/error bit buffer (`BitArray<Lsb0, u8>`), the 8-bit hardware
error code and the echoed tag. -/
structure Status where
  bits : Nat
  error_code : Nat
  tag : Nat
deriving DecidableEq, Repr

/-- `Status::default()`. -/
def Status.default : Status := ⟨0, 0, 0⟩

/-- `Status::poll` (src/packet/raw.rs lines 184-198): if bit 0 of the
bit buffer is set, match the whole 8-bit buffer against
1/2/4/8/16/32, otherwise report `WouldBlock`. -/
def Status.poll (s : Status) : PollResult :=
  if s.bits.testBit 0 then
    match s.bits with
    | 1 => .ok s.tag
    | 2 => .err (.HashMismatch s.error_code)
    | 4 => .err (.SetupError s.error_code)
    | 8 => .err (.PacketError s.error_code)
    | 16 => .err (.SourceError s.error_code)
    | 32 => .err (.DestError s.error_code)
    | _ => .err (.Other s.error_code)
  else
    .wouldBlock

/-- A control packet (src/packet/raw.rs).  Pointers are modelled as
`Nat` addresses; `next` is an optional address of a successor packet. -/
structure ControlPacket where
  next : Option Nat
  control0 : Control0
  control1 : Nat
  source : Nat
  dest : Nat
  bufsize : Nat
  payload : Nat
  status : Status
deriving DecidableEq, Repr

/-- A zero-initialized packet (`unsafe { zeroed() }` in
src/packet/builder.rs). -/
def ControlPacket.zeroed : ControlPacket :=
  ⟨none, Control0.default, 0, 0, 0, 0, 0, Status.default⟩

/-- Identifier of one of the four DCP hardware channels
(src/channels/mod.rs, `Ch<0>`..`Ch<3>`). -/
inductive ChanId
  | c0
  | c1
  | c2
  | c3
deriving DecidableEq, Repr

/-- The register set of one channel: the channel status register, the
command-pointer register (none while never written) and the semaphore
counter. -/
structure ChanState where
  status : Nat
  cmdptr : Option Nat
  sema : Nat
deriving DecidableEq, Repr

/-- `Channel::busy` (src/channels/mod.rs): the semaphore counter read
back is nonzero. -/
def ChanState.busy (c : ChanState) : Bool := c.sema != 0

/-- A freshly enabled channel: status clear, no command pointer, zero
semaphore. -/
def ChanState.fresh : ChanState := ⟨0, none, 0⟩

/-- The four channel register sets of the DCP. -/
structure DcpState where
  ch0 : ChanState
  ch1 : ChanState
  ch2 : ChanState
  ch3 : ChanState
deriving DecidableEq, Repr

/-- Register set of channel `i`. -/
def DcpState.chan (s : DcpState) : ChanId → ChanState
  | .c0 => s.ch0
  | .c1 => s.ch1
  | .c2 => s.ch2
  | .c3 => s.ch3

/-- Replace the register set of channel `i`. -/
def DcpState.setChan (s : DcpState) (i : ChanId) (c : ChanState) : DcpState :=
  match i with
  | .c0 => { s with ch0 := c }
  | .c1 => { s with ch1 := c }
  | .c2 => { s with ch2 := c }
  | .c3 => { s with ch3 := c }

/-- All four channels fresh. -/
def DcpState.fresh : DcpState :=
  ⟨ChanState.fresh, ChanState.fresh, ChanState.fresh, ChanState.fresh⟩

/-- One channel register write, as issued by the `Channel` trait methods
in src/channels/mod.rs: `clear_status` (a write of `u32::MAX` to
`CHnSTAT_CLR`, clearing every status bit), `write_cmdptr` (a write of the
packet address to `CHnCMDPTR`) and `incr_semaphore` (a write of `n` to
`CHnSEMA`, which the hardware adds to the semaphore counter). -/
inductive RegWrite
  | clearStatus (ch : ChanId)
  | writeCmdptr (ch : ChanId) (addr : Nat)
  | incrSema (ch : ChanId) (n : Nat)
deriving DecidableEq, Repr

/-- Effect of one register write on the channel registers. -/
def applyWrite (s : DcpState) : RegWrite → DcpState
  | .clearStatus i => s.setChan i { s.chan i with status := 0 }
  | .writeCmdptr i a => s.setChan i { s.chan i with cmdptr := some a }
  | .incrSema i n => s.setChan i { s.chan i with sema := (s.chan i).sema + n }

/-- Effect of a sequence of register writes. -/
def applyLog (s : DcpState) (l : List RegWrite) : DcpState :=
  l.foldl applyWrite s

/-- Result of `Executor::inner_exec`: the returned `Result<(), _>`, the
channel registers after the call, the (possibly mutated) submitted
packet, and the log of register writes the call issued, in order. -/
structure ExecOut where
  res : Except ExError Unit
  dcp : DcpState
  packet : ControlPacket
  log : List RegWrite

/-- The register writes of `Channel::clear_and_cmdptr` followed by
`Channel::incr_semaphore(1)` on channel `ch` for packet address
`addr` (src/channels/mod.rs, called from src/ex.rs and src/ex/mod.rs). -/
def armLog (ch : ChanId) (addr : Nat) : List RegWrite :=
  [.clearStatus ch, .writeCmdptr ch addr, .incrSema ch 1]

/-- `SingleChannel::inner_exec` of src/ex.rs (newer revision): fail with
`SlotsFull` while the channel is busy, touching nothing; otherwise
evaluate `task.control0.flag(Control0Flag::DecrSemaphore)` and discard
the result (the statement has no receiver mutation, so the packet is
unchanged), then clear status, write the command pointer and increment
the semaphore by one. -/
def singleInnerExec (ch : ChanId) (s : DcpState) (p : ControlPacket) (addr : Nat) : ExecOut :=
  if (s.chan ch).busy then
    ⟨.error .SlotsFull, s, p, []⟩
  else
    ⟨.ok (), applyLog s (armLog ch addr), p, armLog ch addr⟩

/-- `SingleChannel::inner_exec` of src/ex/mod.rs (older revision): as the
newer one, but `task.control0.decr_semaphore()` mutates the packet in
place, setting flag bit 1 before the register writes. -/
def singleInnerExecOld (ch : ChanId) (s : DcpState) (p : ControlPacket) (addr : Nat) : ExecOut :=
  if (s.chan ch).busy then
    ⟨.error .SlotsFull, s, p, []⟩
  else
    ⟨.ok (), applyLog s (armLog ch addr),
      { p with control0 := p.control0.decr_semaphore }, armLog ch addr⟩

/-- `Scheduler::inner_exec` (identical in src/ex.rs and src/ex/mod.rs):
try channels 3, 2, 1, 0 in that order; arm the first non-busy one with
`clear_and_cmdptr` then `incr_semaphore(1)`; fail with `SlotsFull` when
all four are busy.  The packet is never mutated. -/
def schedInnerExec (s : DcpState) (p : ControlPacket) (addr : Nat) : ExecOut :=
  if !(s.chan .c3).busy then
    ⟨.ok (), applyLog s (armLog .c3 addr), p, armLog .c3 addr⟩
  else if !(s.chan .c2).busy then
    ⟨.ok (), applyLog s (armLog .c2 addr), p, armLog .c2 addr⟩
  else if !(s.chan .c1).busy then
    ⟨.ok (), applyLog s (armLog .c1 addr), p, armLog .c1 addr⟩
  else if !(s.chan .c0).busy then
    ⟨.ok (), applyLog s (armLog .c0 addr), p, armLog .c0 addr⟩
  else
    ⟨.error .SlotsFull, s, p, []⟩

/-- The channel `Scheduler::inner_exec` selects: the first non-busy
channel in the fixed order 3, 2, 1, 0, or `none` when all are busy. -/
def schedPick (s : DcpState) : Option ChanId :=
  if !(s.chan .c3).busy then some .c3
  else if !(s.chan .c2).busy then some .c2
  else if !(s.chan .c1).busy then some .c1
  else if !(s.chan .c0).busy then some .c0
  else none

/-- The loop of `Executor::exec_slice` (src/ex.rs lines 36-39): set the
chain-continuous flag on every packet of the slice except the last
(`split_last_mut` yields the elements before the last). -/
def chainAllButLast : List ControlPacket → List ControlPacket
  | [] => []
  | [p] => [p]
  | p :: q :: rest =>
      { p with control0 := p.control0.flag .ChainContinuous } :: chainAllButLast (q :: rest)

/-- Result of `Executor::exec_slice`: the returned `Result`, the channel
registers, the slice contents after the call and the register write
log. -/
structure SliceOut where
  res : Except ExError Unit
  dcp : DcpState
  packets : List ControlPacket
  log : List RegWrite

/-- `Executor::exec_slice` for a `SingleChannel` executor, src/ex.rs
revision: panic (`none`) on an empty slice, otherwise flag all packets
but the last as chain-continuous and call `inner_exec` on `tasks[0]`,
i.e. submit the first packet's address (`base`).  The flag mutations
persist even when `inner_exec` fails. -/
def execSliceSingle (ch : ChanId) (s : DcpState) (ps : List ControlPacket) (base : Nat) :
    Option SliceOut :=
  match chainAllButLast ps with
  | [] => none
  | p0 :: rest =>
      let e := singleInnerExec ch s p0 base
      some ⟨e.res, e.dcp, e.packet :: rest, e.log⟩

/-- `Executor::exec_slice` of the src/ex/mod.rs revision: an empty slice
returns `Ok` immediately; otherwise all packets but the last get the
(in-place) `chain_continuous()` flag and `inner_exec` is called on
`last`, the last packet of the slice; `lastAddr` is that packet's
address. -/
def execSliceSingleOld (ch : ChanId) (s : DcpState) (ps : List ControlPacket)
    (lastAddr : Nat) : SliceOut :=
  match chainAllButLast ps with
  | [] => ⟨.ok (), s, [], []⟩
  | p :: rest =>
      let last := (p :: rest).getLast (List.cons_ne_nil p rest)
      let e := singleInnerExecOld ch s last lastAddr
      ⟨e.res, e.dcp, (p :: rest).dropLast ++ [e.packet], e.log⟩

/-- Hash algorithm selectors (src/ops/mod.rs): `Sha1`, `Sha256`,
`Crc32`. -/
inductive HashAlg
  | sha1
  | sha256
  | crc32
deriving DecidableEq, Repr

/-- `HashSelect::HASH_SELECT` constants (src/ops/mod.rs). -/
def HashAlg.hashSelect : HashAlg → Nat
  | .sha1 => 0
  | .sha256 => 2
  | .crc32 => 1

/-- `HashSelect::PAYLOAD_BYTES` constants exactly as written in
src/ops/mod.rs lines 55-68 (note: `Sha256` is declared with 20, not
32). -/
def HashAlg.payloadBytes : HashAlg → Nat
  | .sha1 => 20
  | .sha256 => 20
  | .crc32 => 4

/-- `HashSelect::ctl1()` (src/ops/mod.rs): a defaulted `Control1` with
`hash_select` (bits 16..20) set to the algorithm's selector. -/
def HashAlg.ctl1 (h : HashAlg) : Nat :=
  storeField 0 16 4 h.hashSelect

/-- `PacketBuilder::<Hash<H>>::new` (src/packet/mod.rs lines 104-124):
assert `payl.len() >= H::PAYLOAD_BYTES` (an assertion failure is
`none`), then build the packet with the `Control0::hash()` constructor,
the algorithm's `Control1`, the source pointer and length, a null
`dest`, and the payload pointer.  `BlankTask::<Hash<H>>::set_buffers`
(src/task.rs lines 112-118) guards the same assertion. -/
def hashPacketNew (h : HashAlg) (srcPtr srcLen paylPtr paylLen : Nat) :
    Option ControlPacket :=
  if paylLen ≥ h.payloadBytes then
    some
      { next := none
        control0 := Control0.hash
        control1 := h.ctl1
        source := srcPtr
        dest := 0
        bufsize := srcLen
        payload := paylPtr
        status := Status.default }
  else
    none

/-- `PacketBuilder::<Cipher>::new` control0 (src/packet/builder.rs
lines 104-114): zeroed, then `EnableCipher` and `PayloadKey`. -/
def builderCipherCtl0 : Control0 :=
  (Control0.default.flag .EnableCipher).flag .PayloadKey

/-- `PacketBuilder::<Hash>::new` control0 (src/packet/builder.rs
lines 123-131): zeroed, then `EnableHash`. -/
def builderHashCtl0 : Control0 :=
  Control0.default.flag .EnableHash

/-- `PacketBuilder::<Memcopy>::new` control0 (src/packet/builder.rs
lines 140-148): zeroed, then `EnableMemcopy`. -/
def builderMemcopyCtl0 : Control0 :=
  Control0.default.flag .EnableMemcopy

/-- `PacketBuilder::<Blit>::new` control0 (src/packet/builder.rs
lines 157-165): zeroed, then `EnableBlit`. -/
def builderBlitCtl0 : Control0 :=
  Control0.default.flag .EnableBlit

/-- `PacketBuilder::<MemcopyHash>::new` control0 (src/packet/builder.rs
lines 189-200): zeroed, then `EnableHash` and `EnableMemcopy`. -/
def builderMemcopyHashCtl0 : Control0 :=
  (Control0.default.flag .EnableHash).flag .EnableMemcopy

/-- `PacketBuilder::<CipherHash>::new` control0 (src/packet/builder.rs
lines 209-221) exactly as written: zeroed, then `EnableCipher` and
`EnableMemcopy`. -/
def builderCipherHashCtl0 : Control0 :=
  (Control0.default.flag .EnableCipher).flag .EnableMemcopy

/-- Endian-swap configuration (src/ops.rs `SwapConfig`). -/
inductive SwapConfig
  | Keep
  | WordSwap
  | ByteSwap
  | WordByteSwap
deriving DecidableEq, Repr

/-- `PacketBuilder::input_swap` effect on control0 (src/packet/builder.rs
lines 56-67). -/
def inputSwap (c : Control0) : SwapConfig → Control0
  | .Keep => c
  | .WordSwap => c.flag .InputWordSwap
  | .ByteSwap => c.flag .InputByteSwap
  | .WordByteSwap => (c.flag .InputWordSwap).flag .InputByteSwap

/-- `PacketBuilder::output_swap` effect on control0
(src/packet/builder.rs lines 70-81). -/
def outputSwap (c : Control0) : SwapConfig → Control0
  | .Keep => c
  | .WordSwap => c.flag .OutputWordSwap
  | .ByteSwap => c.flag .OutputByteSwap
  | .WordByteSwap => (c.flag .OutputWordSwap).flag .OutputByteSwap

/-- `PacketBuilder::key_swap` effect on control0 (src/packet/builder.rs
lines 300-311) exactly as written: the `OutputWordSwap` /
`OutputByteSwap` flags are the ones set. -/
def keySwap (c : Control0) : SwapConfig → Control0
  | .Keep => c
  | .WordSwap => c.flag .OutputWordSwap
  | .ByteSwap => c.flag .OutputByteSwap
  | .WordByteSwap => (c.flag .OutputWordSwap).flag .OutputByteSwap

/-- The task states of src/task.rs. -/
inductive TaskState
  | idle
  | running
  | done
deriving DecidableEq, Repr

/-- A `Task` (src/task.rs) together with the channel registers its
executor owns: the state tag, the owned control packet (whose `status`
field the hardware fills) and the register state. -/
structure TaskSys where
  tstate : TaskState
  packet : ControlPacket
  dcp : DcpState
deriving Repr

/-- An executor's `inner_exec`, abstracted as src/task.rs sees it
through `Executor::exec_one`: a function of the register state, the
submitted packet and its address. -/
def ExFun : Type := DcpState → ControlPacket → Nat → ExecOut

/-- `Task::poll` (src/task.rs lines 182-207).
Idle: call `exec_one`; an executor error is returned as
`Error::Executor` with the state left at `Idle`; on success the state
becomes `Running` and `WouldBlock` is returned.
Running: decode `status.poll()`; `WouldBlock` keeps `Running`; a
terminal result moves to `Done` and is returned.
Done: re-return `status.poll()` with no executor call and no register
write. -/
def taskPoll (ex : ExFun) (s : TaskSys) (addr : Nat) :
    PollResult × TaskSys × List RegWrite :=
  match s.tstate with
  | .idle =>
      let e := ex s.dcp s.packet addr
      match e.res with
      | .error err =>
          (.err (.Executor err), { s with packet := e.packet, dcp := e.dcp }, e.log)
      | .ok _ =>
          (.wouldBlock,
            { tstate := .running, packet := e.packet, dcp := e.dcp }, e.log)
  | .running =>
      match s.packet.status.poll with
      | .ok r => (.ok r, { s with tstate := .done }, [])
      | .wouldBlock => (.wouldBlock, s, [])
      | .err e => (.err e, { s with tstate := .done }, [])
  | .done => (s.packet.status.poll, s, [])

/-- Claim C1: the spec says a completed status whose hash-mismatch bit
(bit 1) is set decodes to the hash-mismatch error class, and likewise
bits 2..5 decode to setup/packet/source/dest errors.  The code matches
the whole 8-bit buffer against 2, 4, 8, 16 and 32 only after requiring
bit 0 set, so those five arms are unreachable (the buffer is odd) and
every completed error pattern decodes to `Other`: at status bits
0b000011 (done + hash mismatch, error code 5) `poll` returns
`Other(5)`, not `HashMismatch(5)`; the same happens for the setup
(0b101), packet (0b1001), source (0b10001) and dest (0b100001)
patterns. -/
theorem c1_status_poll_error_arms_unreachable :
    Status.poll ⟨3, 5, 9⟩ = .err (.Other 5) ∧
    Status.poll ⟨3, 5, 9⟩ ≠ .err (.HashMismatch 5) ∧
    Status.poll ⟨5, 5, 9⟩ = .err (.Other 5) ∧
    Status.poll ⟨9, 5, 9⟩ = .err (.Other 5) ∧
    Status.poll ⟨17, 5, 9⟩ = .err (.Other 5) ∧
    Status.poll ⟨33, 5, 9⟩ = .err (.Other 5) ∧
    Status.poll ⟨1, 5, 9⟩ = .ok 9 ∧
    Status.poll ⟨0, 5, 9⟩ = .wouldBlock ∧
    Status.poll ⟨2, 5, 9⟩ = .wouldBlock := by
  decide

/-- Claim C3: the spec says a hash packet with a payload buffer shorter
than the digest size (32 bytes for SHA-256) always fails to build.  The
code declares `Sha256::PAYLOAD_BYTES = 20` (src/ops/mod.rs line 62), so
a 20-byte payload — 12 bytes short of the 32-byte SHA-256 digest that
src/packet/builder.rs's own doc comment requires — passes the assertion
and produces a submittable packet.  The SHA-1 and CRC32 bounds behave as
claimed. -/
theorem c3_sha256_undersized_payload_accepted :
    (hashPacketNew .sha256 100 64 200 20).isSome = true ∧
    20 < 32 ∧
    hashPacketNew .sha1 100 64 200 19 = none ∧
    (hashPacketNew .sha1 100 64 200 20).isSome = true ∧
    hashPacketNew .crc32 100 64 200 3 = none ∧
    (hashPacketNew .crc32 100 64 200 4).isSome = true := by
  decide

/-- Claim C8: the spec says the Cipher+Hash constructor sets exactly the
enable-cipher and enable-hash bits.  The raw `Control0::cipher_hash()`
constructor (src/packet/raw.rs) does: bits 5 and 6 set, bits 4 and 7
clear — as do all the other raw constructors for their kinds — but
`PacketBuilder::<CipherHash>::new` (src/packet/builder.rs lines 209-221)
sets enable-cipher and enable-MEMCOPY (bits 5 and 4), leaving
enable-hash (bit 6) clear. -/
theorem c8_cipher_hash_builder_wrong_enable_bits :
    (Control0.memcopy.flags.testBit 4 = true ∧ Control0.memcopy.flags.testBit 5 = false ∧
      Control0.memcopy.flags.testBit 6 = false ∧ Control0.memcopy.flags.testBit 7 = false) ∧
    (Control0.cipher.flags.testBit 5 = true ∧ Control0.cipher.flags.testBit 4 = false ∧
      Control0.cipher.flags.testBit 6 = false ∧ Control0.cipher.flags.testBit 7 = false) ∧
    (Control0.hash.flags.testBit 6 = true ∧ Control0.hash.flags.testBit 4 = false ∧
      Control0.hash.flags.testBit 5 = false ∧ Control0.hash.flags.testBit 7 = false) ∧
    (Control0.blit.flags.testBit 7 = true ∧ Control0.blit.flags.testBit 4 = false ∧
      Control0.blit.flags.testBit 5 = false ∧ Control0.blit.flags.testBit 6 = false) ∧
    (Control0.memcopy_hash.flags.testBit 4 = true ∧
      Control0.memcopy_hash.flags.testBit 6 = true ∧
      Control0.memcopy_hash.flags.testBit 5 = false ∧
      Control0.memcopy_hash.flags.testBit 7 = false) ∧
    (Control0.cipher_hash.flags.testBit 5 = true ∧
      Control0.cipher_hash.flags.testBit 6 = true ∧
      Control0.cipher_hash.flags.testBit 4 = false ∧
      Control0.cipher_hash.flags.testBit 7 = false) ∧
    (builderMemcopyHashCtl0.flags.testBit 4 = true ∧
      builderMemcopyHashCtl0.flags.testBit 6 = true ∧
      builderMemcopyHashCtl0.flags.testBit 5 = false ∧
      builderMemcopyHashCtl0.flags.testBit 7 = false) ∧
    (builderCipherHashCtl0.flags.testBit 5 = true ∧
      builderCipherHashCtl0.flags.testBit 4 = true ∧
      builderCipherHashCtl0.flags.testBit 6 = false) := by
  decide

/-- Claim C9: the spec says configuring the key swap modifies only the
key word-swap (bit 19) and key byte-swap (bit 18) bits.
`PacketBuilder::key_swap` (src/packet/builder.rs lines 300-311) instead
sets the OUTPUT swap flags: on a fresh control0, `key_swap(WordSwap)`
leaves bit 19 clear and sets bit 23 (output word-swap), and
`key_swap(ByteSwap)` leaves bit 18 clear and sets bit 22 (output
byte-swap); `input_swap` and `output_swap` set their own groups'
bits as claimed. -/
theorem c9_key_swap_sets_output_bits :
    ((keySwap Control0.default .WordSwap).flags.testBit 19 = false ∧
      (keySwap Control0.default .WordSwap).flags.testBit 23 = true) ∧
    ((keySwap Control0.default .ByteSwap).flags.testBit 18 = false ∧
      (keySwap Control0.default .ByteSwap).flags.testBit 22 = true) ∧
    ((keySwap Control0.default .WordByteSwap).flags = 2 ^ 23 + 2 ^ 22) ∧
    ((inputSwap Control0.default .WordSwap).flags = 2 ^ 21) ∧
    ((inputSwap Control0.default .ByteSwap).flags = 2 ^ 20) ∧
    ((inputSwap Control0.default .WordByteSwap).flags = 2 ^ 21 + 2 ^ 20) ∧
    ((inputSwap Control0.default .Keep).flags = 0) ∧
    ((outputSwap Control0.default .WordSwap).flags = 2 ^ 23) ∧
    ((outputSwap Control0.default .ByteSwap).flags = 2 ^ 22) ∧
    ((outputSwap Control0.default .WordByteSwap).flags = 2 ^ 23 + 2 ^ 22) ∧
    ((outputSwap Control0.default .Keep).flags = 0) := by
  decide

/-- Claim C10: the spec's single-channel submission is supposed to set
the packet's decrement-semaphore flag (bit 1) before arming the
channel.  The src/ex.rs revision evaluates
`task.control0.flag(Control0Flag::DecrSemaphore)` and discards the
returned value, so a successful submission leaves the bit clear; the
src/ex/mod.rs revision's in-place `decr_semaphore()` sets it.  The
multi-channel scheduler returns the packet unmodified in both
revisions, as claimed. -/
theorem c10_decr_semaphore_flag_discarded :
    ((singleInnerExec .c0 DcpState.fresh ControlPacket.zeroed 7).res = Except.ok () ∧
      (singleInnerExec .c0 DcpState.fresh
          ControlPacket.zeroed 7).packet.control0.flags.testBit 1 = false ∧
      (singleInnerExec .c0 DcpState.fresh ControlPacket.zeroed 7).packet =
        ControlPacket.zeroed) ∧
    ((singleInnerExecOld .c0 DcpState.fresh ControlPacket.zeroed 7).res = Except.ok () ∧
      (singleInnerExecOld .c0 DcpState.fresh
          ControlPacket.zeroed 7).packet.control0.flags.testBit 1 = true) ∧
    ((schedInnerExec DcpState.fresh ControlPacket.zeroed 7).res = Except.ok () ∧
      (schedInnerExec DcpState.fresh ControlPacket.zeroed 7).packet =
        ControlPacket.zeroed) := by
  refine ⟨⟨rfl, by decide, rfl⟩, ⟨rfl, by decide⟩, rfl, rfl⟩

/-- Claim C6: submitting through a busy single-channel executor returns
`SlotsFull`, issues no register write (the channel registers — status,
command pointer and semaphore — are exactly the input state) and leaves
the packet unmodified, in both the src/ex.rs and src/ex/mod.rs
revisions. -/
theorem c6_single_channel_busy_unmodified (ch : ChanId) (s : DcpState)
    (p : ControlPacket) (addr : Nat) (h : (s.chan ch).busy = true) :
    singleInnerExec ch s p addr = ⟨.error .SlotsFull, s, p, []⟩ ∧
    singleInnerExecOld ch s p addr = ⟨.error .SlotsFull, s, p, []⟩ := by
  constructor <;> simp [singleInnerExec, singleInnerExecOld, h]

/-- Witness for C6 at a concrete busy channel: channel 0 with semaphore
counter 1. -/
theorem c6_witness :
    ((⟨⟨0, none, 1⟩, ChanState.fresh, ChanState.fresh,
        ChanState.fresh⟩ : DcpState).chan .c0).busy = true ∧
    singleInnerExec .c0
        ⟨⟨0, none, 1⟩, ChanState.fresh, ChanState.fresh, ChanState.fresh⟩
        ControlPacket.zeroed 3 =
      ⟨.error .SlotsFull,
        ⟨⟨0, none, 1⟩, ChanState.fresh, ChanState.fresh, ChanState.fresh⟩,
        ControlPacket.zeroed, []⟩ ∧
    singleInnerExecOld .c0
        ⟨⟨0, none, 1⟩, ChanState.fresh, ChanState.fresh, ChanState.fresh⟩
        ControlPacket.zeroed 3 =
      ⟨.error .SlotsFull,
        ⟨⟨0, none, 1⟩, ChanState.fresh, ChanState.fresh, ChanState.fresh⟩,
        ControlPacket.zeroed, []⟩ :=
  ⟨by decide,
    (c6_single_channel_busy_unmodified .c0 _ ControlPacket.zeroed 3 (by decide)).1,
    (c6_single_channel_busy_unmodified .c0 _ ControlPacket.zeroed 3 (by decide)).2⟩

/-- Claim C7: the multi-channel scheduler fails with `SlotsFull` exactly
when all four channels are busy; otherwise it picks the first free
channel in the fixed order 3, 2, 1, 0 and arms exactly that channel,
clearing its status and writing its command pointer before incrementing
its semaphore by one — the write log is precisely
`[clearStatus c, writeCmdptr c addr, incrSema c 1]`. -/
theorem c7_scheduler_capacity_iff_all_busy (s : DcpState) (p : ControlPacket)
    (addr : Nat) :
    ((schedInnerExec s p addr).res = .error .SlotsFull ↔
      (s.chan .c0).busy = true ∧ (s.chan .c1).busy = true ∧
      (s.chan .c2).busy = true ∧ (s.chan .c3).busy = true) ∧
    ((schedInnerExec s p addr).res = .ok () ↔
      ¬((s.chan .c0).busy = true ∧ (s.chan .c1).busy = true ∧
        (s.chan .c2).busy = true ∧ (s.chan .c3).busy = true)) ∧
    (∀ c, schedPick s = some c →
      (s.chan c).busy = false ∧
      (schedInnerExec s p addr).res = .ok () ∧
      (schedInnerExec s p addr).log = armLog c addr ∧
      (schedInnerExec s p addr).dcp = applyLog s (armLog c addr)) ∧
    (schedPick s = none ↔
      (s.chan .c0).busy = true ∧ (s.chan .c1).busy = true ∧
      (s.chan .c2).busy = true ∧ (s.chan .c3).busy = true) := by
  cases h3 : (s.chan .c3).busy <;> cases h2 : (s.chan .c2).busy <;>
    cases h1 : (s.chan .c1).busy <;> cases h0 : (s.chan .c0).busy <;>
    simp [schedInnerExec, schedPick, h0, h1, h2, h3]

/-- Witness for C7 on a fresh register state: channel 3 is picked, the
submission succeeds and the log is exactly the three-write arming
sequence on channel 3. -/
theorem c7_witness :
    (DcpState.fresh.chan .c3).busy = false ∧
    (schedInnerExec DcpState.fresh ControlPacket.zeroed 5).res = .ok () ∧
    (schedInnerExec DcpState.fresh ControlPacket.zeroed 5).log = armLog .c3 5 := by
  have h := (c7_scheduler_capacity_iff_all_busy DcpState.fresh
    ControlPacket.zeroed 5).2.2.1 .c3 (by decide)
  exact ⟨h.1, h.2.1, h.2.2.1⟩

/-- Claim C4: polling a task in the `Idle` state attempts submission
through its executor.  If `inner_exec` reports capacity exhaustion
(`SlotsFull`), the poll returns that error wrapped as
`Error::Executor` and the task state is still `Idle`, so the next poll
submits again; if submission succeeds, the state becomes `Running` and
the poll reports `WouldBlock`. -/
theorem c4_idle_poll_submission (ex : ExFun) (s : TaskSys) (addr : Nat)
    (hidle : s.tstate = .idle) :
    ((ex s.dcp s.packet addr).res = .error .SlotsFull →
      (taskPoll ex s addr).1 = .err (.Executor .SlotsFull) ∧
      (taskPoll ex s addr).2.1.tstate = .idle) ∧
    ((ex s.dcp s.packet addr).res = .ok () →
      (taskPoll ex s addr).1 = .wouldBlock ∧
      (taskPoll ex s addr).2.1.tstate = .running) := by
  obtain ⟨t, p, d⟩ := s
  simp only [TaskSys.tstate] at hidle
  subst hidle
  constructor <;> intro h <;> simp [taskPoll, h]

/-- Witness for C4: with a single-channel executor on channel 0, an idle
task over a busy channel polls to the executor error and stays idle; the
same task over a free channel polls to `WouldBlock` and becomes
running. -/
theorem c4_witness :
    ((taskPoll (singleInnerExec .c0)
        ⟨.idle, ControlPacket.zeroed,
          ⟨⟨0, none, 1⟩, ChanState.fresh, ChanState.fresh, ChanState.fresh⟩⟩ 3).1 =
      .err (.Executor .SlotsFull) ∧
      (taskPoll (singleInnerExec .c0)
        ⟨.idle, ControlPacket.zeroed,
          ⟨⟨0, none, 1⟩, ChanState.fresh, ChanState.fresh,
            ChanState.fresh⟩⟩ 3).2.1.tstate = .idle) ∧
    ((taskPoll (singleInnerExec .c0)
        ⟨.idle, ControlPacket.zeroed, DcpState.fresh⟩ 3).1 = .wouldBlock ∧
      (taskPoll (singleInnerExec .c0)
        ⟨.idle, ControlPacket.zeroed, DcpState.fresh⟩ 3).2.1.tstate = .running) :=
  ⟨(c4_idle_poll_submission (singleInnerExec .c0)
      ⟨.idle, ControlPacket.zeroed,
        ⟨⟨0, none, 1⟩, ChanState.fresh, ChanState.fresh, ChanState.fresh⟩⟩ 3 rfl).1 rfl,
    (c4_idle_poll_submission (singleInnerExec .c0)
      ⟨.idle, ControlPacket.zeroed, DcpState.fresh⟩ 3 rfl).2 rfl⟩

/-- Claim C5: once a task reaches `Done`, polling re-returns
`status.poll()` of the unchanged packet, leaves the task untouched and
issues no register write and no submission (the executor argument is
never consulted).  Moreover the terminal result returned on the
`Running` → `Done` transition is exactly that same value, so every
later poll returns a result identical to the previously returned
terminal result. -/
theorem c5_done_poll_idempotent (ex ex2 : ExFun) (s : TaskSys) (a1 a2 : Nat) :
    (s.tstate = .done → taskPoll ex s a1 = (s.packet.status.poll, s, [])) ∧
    (s.tstate = .running → s.packet.status.poll ≠ .wouldBlock →
      (taskPoll ex s a1).1 = s.packet.status.poll ∧
      (taskPoll ex s a1).2.1 = { s with tstate := .done } ∧
      (taskPoll ex s a1).2.2 = [] ∧
      taskPoll ex2 { s with tstate := .done } a2 =
        (s.packet.status.poll, { s with tstate := .done }, [])) := by
  obtain ⟨t, p, d⟩ := s
  constructor
  · intro h
    simp only [TaskSys.tstate] at h
    subst h
    simp [taskPoll]
  · intro hrun hterm
    simp only [TaskSys.tstate] at hrun
    subst hrun
    cases hp : p.status.poll with
    | ok r => simp [taskPoll, hp]
    | wouldBlock => exact absurd hp hterm
    | err e => simp [taskPoll, hp]

/-- Witness for C5: a task whose packet status reads done with tag 7.
In the `Done` state every poll — with any executor and address —
returns `Ok(7)` with the task unchanged and an empty write log, and the
`Running` → `Done` transition returned the identical `Ok(7)`. -/
theorem c5_witness :
    taskPoll (singleInnerExec .c0)
        ⟨.done, { ControlPacket.zeroed with status := ⟨1, 0, 7⟩ }, DcpState.fresh⟩ 0 =
      (.ok 7, ⟨.done, { ControlPacket.zeroed with status := ⟨1, 0, 7⟩ },
        DcpState.fresh⟩, []) ∧
    (taskPoll (singleInnerExec .c0)
        ⟨.running, { ControlPacket.zeroed with status := ⟨1, 0, 7⟩ },
          DcpState.fresh⟩ 0).1 = .ok 7 ∧
    taskPoll (singleInnerExec .c1)
        ⟨.done, { ControlPacket.zeroed with status := ⟨1, 0, 7⟩ }, DcpState.fresh⟩ 4 =
      (.ok 7, ⟨.done, { ControlPacket.zeroed with status := ⟨1, 0, 7⟩ },
        DcpState.fresh⟩, []) :=
  ⟨(c5_done_poll_idempotent (singleInnerExec .c0) (singleInnerExec .c0)
      ⟨.done, { ControlPacket.zeroed with status := ⟨1, 0, 7⟩ }, DcpState.fresh⟩
      0 0).1 rfl,
    ((c5_done_poll_idempotent (singleInnerExec .c0) (singleInnerExec .c0)
      ⟨.running, { ControlPacket.zeroed with status := ⟨1, 0, 7⟩ }, DcpState.fresh⟩
      0 0).2 rfl (by decide)).1,
    (c5_done_poll_idempotent (singleInnerExec .c1) (singleInnerExec .c1)
      ⟨.done, { ControlPacket.zeroed with status := ⟨1, 0, 7⟩ }, DcpState.fresh⟩
      4 4).1 rfl⟩

/-- Setting a flag sets its bit. -/
theorem testBit_flag_self (c : Control0) (f : Control0Flag) :
    (c.flag f).flags.testBit f.bit = true := by
  simp [Control0.flag, Nat.testBit_lor, Nat.testBit_two_pow_self]

/-- The chain-continuous loop preserves the slice length. -/
theorem chainAllButLast_length :
    ∀ ps : List ControlPacket, (chainAllButLast ps).length = ps.length
  | [] => rfl
  | [_] => rfl
  | _ :: q :: rest => by
      simp [chainAllButLast, chainAllButLast_length (q :: rest)]

/-- The chain-continuous loop never touches the `next` fields. -/
theorem chainAllButLast_map_next :
    ∀ ps : List ControlPacket,
      (chainAllButLast ps).map (fun p => p.next) = ps.map (fun p => p.next)
  | [] => rfl
  | [_] => rfl
  | _ :: q :: rest => by
      simp [chainAllButLast, chainAllButLast_map_next (q :: rest)]

/-- The chain-continuous loop leaves the last packet unchanged. -/
theorem chainAllButLast_getLast? :
    ∀ ps : List ControlPacket, (chainAllButLast ps).getLast? = ps.getLast?
  | [] => rfl
  | [_] => rfl
  | p :: q :: rest => by
      have ih := chainAllButLast_getLast? (q :: rest)
      cases hc : chainAllButLast (q :: rest) with
      | nil =>
          have hl := chainAllButLast_length (q :: rest)
          rw [hc] at hl
          simp at hl
      | cons a l =>
          rw [chainAllButLast, hc, List.getLast?_cons_cons, ← hc, ih,
            List.getLast?_cons_cons]

/-- Every packet of the slice except the last carries the
chain-continuous bit (bit 3) after the loop. -/
theorem chainAllButLast_dropLast_bit3 :
    ∀ (ps : List ControlPacket) (p : ControlPacket),
      p ∈ (chainAllButLast ps).dropLast → p.control0.flags.testBit 3 = true
  | [] => by intro p hp; simp [chainAllButLast] at hp
  | [_] => by intro p hp; simp [chainAllButLast] at hp
  | q :: r :: rest => by
      intro p hp
      rw [chainAllButLast] at hp
      cases hc : chainAllButLast (r :: rest) with
      | nil =>
          have hl := chainAllButLast_length (r :: rest)
          rw [hc] at hl
          simp at hl
      | cons a l =>
          rw [hc, List.dropLast_cons₂, List.mem_cons] at hp
          rcases hp with rfl | hp
          · exact testBit_flag_self q.control0 .ChainContinuous
          · exact chainAllButLast_dropLast_bit3 (r :: rest) p (by rw [hc]; exact hp)

/-- Claim C2 (amended): over a slice of at least two packets submitted
through a free single channel (src/ex.rs revision), `exec_slice` sets
the chain-continuous flag on every packet except the last, leaves the
last packet's chain-continuous flag unchanged, leaves every packet's
`next` field unchanged (chaining relies on the slice being physically
contiguous, not on `next` links), and submits only the first packet's
address: the whole register activity is one status clear, one
command-pointer write naming the first packet and one semaphore
increment by one. -/
theorem c2_exec_slice_chain (ch : ChanId) (s : DcpState)
    (ps : List ControlPacket) (base : Nat) (hlen : 2 ≤ ps.length)
    (hfree : (s.chan ch).busy = false) :
    ∃ o : SliceOut, execSliceSingle ch s ps base = some o ∧
      o.res = .ok () ∧
      o.packets.length = ps.length ∧
      (∀ p ∈ o.packets.dropLast, p.control0.flags.testBit 3 = true) ∧
      (o.packets.getLast?.map fun p => p.control0.flags.testBit 3) =
        (ps.getLast?.map fun p => p.control0.flags.testBit 3) ∧
      o.packets.map (fun p => p.next) = ps.map (fun p => p.next) ∧
      o.log = armLog ch base ∧
      o.dcp = applyLog s (armLog ch base) := by
  obtain ⟨p0, rest, hchain⟩ : ∃ p0 rest, chainAllButLast ps = p0 :: rest := by
    cases hc : chainAllButLast ps with
    | nil =>
        exfalso
        have hl := chainAllButLast_length ps
        rw [hc] at hl
        simp at hl
        omega
    | cons a l => exact ⟨a, l, rfl⟩
  refine ⟨⟨.ok (), applyLog s (armLog ch base), p0 :: rest, armLog ch base⟩,
    ?_, rfl, ?_, ?_, ?_, ?_, rfl, rfl⟩
  · unfold execSliceSingle
    rw [hchain]
    simp [singleInnerExec, hfree]
  · rw [← hchain, chainAllButLast_length]
  · rw [← hchain]
    exact fun p hp => chainAllButLast_dropLast_bit3 ps p hp
  · rw [← hchain, chainAllButLast_getLast?]
  · rw [← hchain, chainAllButLast_map_next]

/-- Witness for C2 at a concrete two-packet slice over a fresh channel
0: the call succeeds and the register log is exactly the arming
sequence for the first packet's address. -/
theorem c2_witness :
    (execSliceSingle .c0 DcpState.fresh
        [ControlPacket.zeroed, ControlPacket.zeroed] 0).map (fun o => o.log) =
      some (armLog .c0 0) := by
  obtain ⟨o, ho, -, -, -, -, -, hlog, -⟩ := c2_exec_slice_chain .c0 DcpState.fresh
    [ControlPacket.zeroed, ControlPacket.zeroed] 0 (by decide) (by decide)
  rw [ho]
  simp [hlog]

/-- Counterexample for C2 as stated: the claim requires `exec_slice`
over two freshly built packets to link the first packet to the second
via its `next` field, but after the call both `next` fields are still
`none` — no packet is ever linked to its successor. -/
theorem c2_counterexample :
    (execSliceSingle .c0 DcpState.fresh
        [ControlPacket.zeroed, ControlPacket.zeroed] 0).map
        (fun o => o.packets.map fun p => p.next) =
      some [none, none] := by
  rfl

end Dcp
